import Mathlib

/-!
Verification of the RAG engine of the AI-Powered-Portfolio backend.

The Python services under `backend/src/services/` are shallowly embedded as
executable Lean definitions:

* `chunk_resume`        — `EmbeddingService.chunk_resume` (embedding_service.py)
* `add_documents`, `similarity_search`, `clear_collection`,
  `get_collection_count` — `VectorStore` (vector_store.py)
* `stream_completion`   — `OpenRouterClient.stream_completion` (openrouter_client.py)
* `process_question`    — `RAGEngine.process_question` (rag_engine.py)
* `initialize`          — `RAGInitializer.initialize` (initialize_rag.py)

External collaborators (ChromaDB, the sentence-transformer encoder, the
provider HTTP endpoints) appear as explicit inputs: the encoder as a function
from text to a vector, ChromaDB's cosine distance as a function parameter,
and the provider's behaviour as a function from attempt number to an attempt
outcome.  Python floats are modelled as rationals; only their ordering and
the arithmetic `1 - distance` matter to the embedded code.
-/

namespace Portfolio

/-! ## Python string helpers

Python `str` slicing, `str.strip()` truthiness and `" ".join` are modelled
on Lean `String` (a list of characters, as Python strings are sequences of
code points). -/

/-- Python slice `s[:n]`: the first `n` characters of `s`. -/
def pySlice (s : String) (n : Nat) : String :=
  String.mk (s.data.take n)

/-- Python whitespace as used by `str.strip()` (ASCII subset). -/
def pyIsSpace (c : Char) : Bool :=
  c = ' ' || c = '\t' || c = '\n' || c = '\r' || c = Char.ofNat 11 || c = Char.ofNat 12

/-- Python falsiness of `question` coupled with `question.strip()`:
`not question or not question.strip()` is true exactly when every character
is whitespace (in particular for the empty string). -/
def pyBlank (q : String) : Bool :=
  q.data.all pyIsSpace

theorem pySlice_length (s : String) (n : Nat) :
    (pySlice s n).length = min n s.length := by
  show (s.data.take n).length = min n s.data.length
  exact List.length_take n s.data

/-! ## Chunker (`EmbeddingService.chunk_resume`)

`resume_data` is a nested JSON object read with `dict.get` and defaults;
the structures below hold exactly the fields the code reads, with `Option`
where the code tests key presence (`"personal" in resume_data`,
`"github" in project`, …) and plain fields where it uses `.get(key, default)`. -/

structure PersonalData where
  name : String
  location : String
  email : String
  linkedin : String
  github : String

structure EducationData where
  degree : String
  institution : String
  cgpa : String
  expected_graduation : String
  relevant_coursework : List String

structure ExperienceData where
  role : String
  company : String
  location : String
  duration : String
  responsibilities : List String
  technologies : List String

structure SkillsData where
  languages : Option (List String)
  frontend : Option (List String)
  backend : Option (List String)
  databases : Option (List String)
  devops : Option (List String)
  ai_ml : Option (List String)

structure ProjectData where
  name : String
  description : String
  technologies : List String
  highlights : List String
  github : Option String
  demo : Option String

structure ResumeData where
  personal : Option PersonalData
  education : Option EducationData
  experience : Option (List ExperienceData)
  skills : Option SkillsData
  projects : Option (List ProjectData)

/-- The guarded append `if len(chunk) >= 200: chunks.append(chunk)`. -/
def appendIfLong (chunk : String) : List String :=
  if 200 ≤ chunk.length then [chunk] else []

/-- The guarded, capped append
`if len(chunk) >= 200: chunks.append(chunk[:500])` used for project
overview and highlight chunks. -/
def appendIfLongCapped (chunk : String) : List String :=
  if 200 ≤ chunk.length then [pySlice chunk 500] else []

/-- Personal information chunk (embedding_service.py lines 86-95). -/
def personalChunks : Option PersonalData → List String
  | none => []
  | some p =>
    appendIfLong (p.name ++ " is located in " ++ p.location ++ ". Contact: " ++
      p.email ++ ", LinkedIn: " ++ p.linkedin ++ ", GitHub: " ++ p.github)

/-- Education chunk (lines 98-107). -/
def educationChunks : Option EducationData → List String
  | none => []
  | some edu =>
    let coursework := String.intercalate ", " edu.relevant_coursework
    appendIfLong ("Education: " ++ edu.degree ++ " from " ++ edu.institution ++
      ", CGPA: " ++ edu.cgpa ++ ", graduating in " ++ edu.expected_graduation ++
      ". Relevant coursework includes " ++ coursework ++ ".")

/-- The two chunks produced per experience entry (lines 111-129): the main
chunk with responsibilities sliced to 300 characters, and the technologies
chunk emitted only when the joined technologies string is non-empty. -/
def experienceEntryChunks (exp : ExperienceData) : List String :=
  let responsibilities := String.intercalate " " exp.responsibilities
  let technologies := String.intercalate ", " exp.technologies
  appendIfLong ("Current role: " ++ exp.role ++ " at " ++ exp.company ++
    " (" ++ exp.location ++ "). Duration: " ++ exp.duration ++
    ". Responsibilities: " ++ pySlice responsibilities 300) ++
  (if technologies ≠ "" then
    appendIfLong (exp.role ++ " at " ++ exp.company ++
      " uses technologies: " ++ technologies)
  else [])

/-- One skills category chunk: `f"{label}{', '.join(items)}"` guarded at 200,
emitted only when the category key is present (lines 135-163). -/
def skillCategoryChunk (label : String) : Option (List String) → List String
  | none => []
  | some items => appendIfLong (label ++ String.intercalate ", " items)

def skillsChunks : Option SkillsData → List String
  | none => []
  | some sk =>
    skillCategoryChunk "Programming Languages: " sk.languages ++
    skillCategoryChunk "Frontend Technologies: " sk.frontend ++
    skillCategoryChunk "Backend Technologies: " sk.backend ++
    skillCategoryChunk "Database Technologies: " sk.databases ++
    skillCategoryChunk "DevOps Tools: " sk.devops ++
    skillCategoryChunk "AI/ML Technologies: " sk.ai_ml

/-- Project overview chunk (lines 168-175): guarded at 200, appended
truncated to 500 characters. -/
def projectOverviewChunks (project : ProjectData) : List String :=
  let technologies := String.intercalate ", " project.technologies
  appendIfLongCapped (project.name ++ ": " ++ project.description ++
    " Technologies: " ++ technologies)

/-- Project highlights chunk (lines 177-184): emitted when the joined
highlights string is non-empty, guarded at 200, truncated to 500. -/
def projectHighlightChunks (project : ProjectData) : List String :=
  let highlights := String.intercalate " " project.highlights
  if highlights ≠ "" then
    appendIfLongCapped (project.name ++ " highlights: " ++ highlights)
  else []

/-- Project links chunk (lines 186-195): built from the `github` and `demo`
keys when present; guarded at 200 and appended without truncation. -/
def projectLinkChunks (project : ProjectData) : List String :=
  let links :=
    (match project.github with
      | some g => ["GitHub: " ++ g]
      | none => []) ++
    (match project.demo with
      | some d => ["Demo: " ++ d]
      | none => [])
  if links ≠ [] then
    appendIfLong (project.name ++ " - " ++ String.intercalate ", " links)
  else []

def projectChunks (project : ProjectData) : List String :=
  projectOverviewChunks project ++ projectHighlightChunks project ++
    projectLinkChunks project

/-- `EmbeddingService.chunk_resume` (embedding_service.py lines 66-197):
the five sections in source order, each contributing its guarded chunks. -/
def chunk_resume (resume_data : ResumeData) : List String :=
  personalChunks resume_data.personal ++
  educationChunks resume_data.education ++
  (match resume_data.experience with
    | none => []
    | some exps => exps.flatMap experienceEntryChunks) ++
  skillsChunks resume_data.skills ++
  (match resume_data.projects with
    | none => []
    | some projects => projects.flatMap projectChunks)

/-! Lower-bound lemmas for the chunk length. -/

theorem mem_appendIfLong {c s : String} (h : c ∈ appendIfLong s) :
    200 ≤ c.length := by
  unfold appendIfLong at h
  split at h
  · next hlen => simp at h; simpa [h] using hlen
  · simp at h

theorem mem_appendIfLongCapped {c s : String} (h : c ∈ appendIfLongCapped s) :
    200 ≤ c.length ∧ c.length ≤ 500 := by
  unfold appendIfLongCapped at h
  split at h
  · next hlen =>
    simp at h
    subst h
    rw [pySlice_length]
    omega
  · simp at h

theorem mem_skillCategoryChunk {c label : String} {o : Option (List String)}
    (h : c ∈ skillCategoryChunk label o) : 200 ≤ c.length := by
  cases o with
  | none => simp [skillCategoryChunk] at h
  | some items => exact mem_appendIfLong h

theorem mem_projectOverviewChunks {c : String} {p : ProjectData}
    (h : c ∈ projectOverviewChunks p) : 200 ≤ c.length ∧ c.length ≤ 500 := by
  simp only [projectOverviewChunks] at h
  exact mem_appendIfLongCapped h

theorem mem_projectHighlightChunks {c : String} {p : ProjectData}
    (h : c ∈ projectHighlightChunks p) : 200 ≤ c.length ∧ c.length ≤ 500 := by
  simp only [projectHighlightChunks] at h
  split at h
  · exact mem_appendIfLongCapped h
  · simp at h

theorem mem_projectLinkChunks {c : String} {p : ProjectData}
    (h : c ∈ projectLinkChunks p) : 200 ≤ c.length := by
  simp only [projectLinkChunks] at h
  split at h
  · exact mem_appendIfLong h
  · simp at h

theorem mem_projectChunks {c : String} {p : ProjectData}
    (h : c ∈ projectChunks p) : 200 ≤ c.length := by
  unfold projectChunks at h
  rcases List.mem_append.1 h with h1 | h1
  · rcases List.mem_append.1 h1 with h2 | h2
    · exact (mem_projectOverviewChunks h2).1
    · exact (mem_projectHighlightChunks h2).1
  · exact mem_projectLinkChunks h1

/-- Every chunk emitted by `chunk_resume` has at least 200 characters:
each append in the source is guarded by `len(chunk) >= 200`, and the two
truncating appends cap at 500 ≥ 200. -/
theorem chunk_resume_lower_bound (r : ResumeData) :
    ∀ c ∈ chunk_resume r, 200 ≤ c.length := by
  intro c hc
  unfold chunk_resume at hc
  rcases List.mem_append.1 hc with h | h
  case _ =>
    rcases List.mem_append.1 h with h | h
    case _ =>
      rcases List.mem_append.1 h with h | h
      case _ =>
        rcases List.mem_append.1 h with h | h
        · cases hp : r.personal with
          | none => rw [hp] at h; simp [personalChunks] at h
          | some p => rw [hp] at h; exact mem_appendIfLong h
        · cases he : r.education with
          | none => rw [he] at h; simp [educationChunks] at h
          | some e => rw [he] at h; exact mem_appendIfLong h
      case _ =>
        cases hx : r.experience with
        | none => rw [hx] at h; simp at h
        | some exps =>
          rw [hx] at h
          obtain ⟨e, _, hmem⟩ := List.mem_flatMap.1 h
          simp only [experienceEntryChunks] at hmem
          rcases List.mem_append.1 hmem with h2 | h2
          · exact mem_appendIfLong h2
          · split at h2
            · exact mem_appendIfLong h2
            · simp at h2
    case _ =>
      cases hs : r.skills with
      | none => rw [hs] at h; simp [skillsChunks] at h
      | some sk =>
        rw [hs] at h
        unfold skillsChunks at h
        rcases List.mem_append.1 h with h | h
        case _ =>
          rcases List.mem_append.1 h with h | h
          case _ =>
            rcases List.mem_append.1 h with h | h
            case _ =>
              rcases List.mem_append.1 h with h | h
              case _ =>
                rcases List.mem_append.1 h with h | h
                · exact mem_skillCategoryChunk h
                · exact mem_skillCategoryChunk h
              case _ => exact mem_skillCategoryChunk h
            case _ => exact mem_skillCategoryChunk h
          case _ => exact mem_skillCategoryChunk h
        case _ => exact mem_skillCategoryChunk h
  case _ =>
    cases hp : r.projects with
    | none => rw [hp] at h; simp at h
    | some ps =>
      rw [hp] at h
      obtain ⟨p, _, hmem⟩ := List.mem_flatMap.1 h
      exact mem_projectChunks hmem

/-- A skills list long enough to produce a chunk of more than 500
characters: the skills branch appends without truncation. -/
def longSkillItem : String := String.mk (List.replicate 600 'a')

def oversizedSkillsResume : ResumeData :=
  { personal := none
    education := none
    experience := none
    skills := some
      { languages := some [longSkillItem]
        frontend := none
        backend := none
        databases := none
        devops := none
        ai_ml := none }
    projects := none }

set_option maxRecDepth 4000 in
/-- C2 counterexample: the claim that every chunk is at most 500 characters
fails on a resume whose skills list formats to 623 characters — the skills
branch (and the personal, education, experience and project-link branches)
appends chunks without truncation.  Only the project overview and highlight
chunks pass through the 500-character cap. -/
theorem chunk_resume_upper_bound_fails :
    ∃ c ∈ chunk_resume oversizedSkillsResume, 500 < c.length := by
  refine ⟨"Programming Languages: " ++ longSkillItem, ?_, ?_⟩ <;> decide

/-- C2 (amended): every chunk produced by `chunk_resume` has character
length at least 200 — any candidate chunk whose formatted length is below
200 is silently dropped — and the project overview and highlight chunks are
additionally truncated to at most 500 characters; the remaining chunk kinds
are appended without an upper bound. -/
theorem chunk_resume_length_bounds (r : ResumeData) (p : ProjectData) :
    (∀ c ∈ chunk_resume r, 200 ≤ c.length) ∧
    (∀ c ∈ projectOverviewChunks p ++ projectHighlightChunks p,
      200 ≤ c.length ∧ c.length ≤ 500) := by
  refine ⟨chunk_resume_lower_bound r, ?_⟩
  intro c hc
  rcases List.mem_append.1 hc with h | h
  · exact mem_projectOverviewChunks h
  · exact mem_projectHighlightChunks h

/-! ## Similarity index (`VectorStore`, vector_store.py)

The ChromaDB collection is modelled as `Option Collection`: `none` when the
collection does not exist (`get_collection` raises), `some c` when it holds
the entries of `c` in insertion order.  ChromaDB's cosine-distance
computation is an external collaborator and enters `similarity_search` as a
function parameter `dist`; its contract (used by `collection.query`) is that
results come back ordered by non-decreasing distance, which the model
realises with a stable insertion sort by distance. -/

/-- A metadata value: the code stores strings and ints. -/
inductive MetaVal where
  | str (s : String)
  | nat (n : Nat)
deriving DecidableEq

/-- A Python metadata dict in insertion order. -/
abbrev Metadata := List (String × MetaVal)

structure VSEntry where
  id : String
  text : String
  embedding : List ℚ
  metadata : Metadata
deriving DecidableEq

structure Collection where
  entries : List VSEntry
deriving DecidableEq

/-- `VectorStore.get_collection_count` (lines 226-242): 0 when the
collection does not exist, otherwise the entry count. -/
def get_collection_count : Option Collection → Nat
  | none => 0
  | some c => c.entries.length

/-- `VectorStore.clear_collection` (lines 209-224): deletes the collection. -/
def clear_collection : Option Collection → Option Collection :=
  fun _ => none

/-- The document ids generated in `add_documents` (line 121):
`ids = [f"doc_{i}" for i in range(len(texts))]` — a function of the batch
length alone. -/
def generated_ids (n : Nat) : List String :=
  (List.range n).map (fun i => "doc_" ++ toString i)

/-- The default metadata built when `metadatas is None` (line 118):
`[{"index": i} for i, _ in enumerate(texts)]`. -/
def default_metadatas (n : Nat) : List Metadata :=
  (List.range n).map (fun i => [("index", MetaVal.nat i)])

inductive AddError where
  | lengthMismatch          -- len(texts) != len(embeddings)
  | metadataLengthMismatch  -- metadatas given with the wrong length
  | dimensionMismatch       -- len(embeddings[0]) != 384
deriving DecidableEq

/-- `VectorStore.add_documents` (lines 62-135).  The three `ValueError`
guards run before the `try` block that creates/gets the collection and adds
the batch, so a validation error leaves the state untouched.  The
dimensionality guard inspects only `embeddings[0]` (line 95).  The result is
the new state paired with the raised error, if any. -/
def add_documents (texts : List String) (embeddings : List (List ℚ))
    (metadatas : Option (List Metadata)) (store : Option Collection) :
    Option Collection × Option AddError :=
  if texts.length ≠ embeddings.length then
    (store, some .lengthMismatch)
  else if (match metadatas with
            | some m => m.length != texts.length
            | none => false) then
    (store, some .metadataLengthMismatch)
  else if (match embeddings.head? with
            | some e0 => e0.length != 384
            | none => false) then
    (store, some .dimensionMismatch)
  else
    let collection := (match store with
      | some c => c
      | none => ⟨[]⟩)
    let metas := (match metadatas with
      | some m => m
      | none => default_metadatas texts.length)
    let ids := generated_ids texts.length
    let newEntries :=
      ((ids.zip texts).zip (embeddings.zip metas)).map
        (fun p => VSEntry.mk p.1.1 p.1.2 p.2.1 p.2.2)
    (some ⟨collection.entries ++ newEntries⟩, none)

inductive SearchError where
  | dimensionMismatch  -- len(query_embedding) != 384
  | invalidK           -- k < 1
deriving DecidableEq

/-- ChromaDB `collection.query`: the `n` entries nearest the query by the
backend's cosine distance, in non-decreasing distance order (stable, so
ties keep insertion order). -/
def chroma_query (dist : List ℚ → List ℚ → ℚ) (entries : List VSEntry)
    (query : List ℚ) (n : Nat) : List (String × ℚ) :=
  ((entries.map (fun e => (e.text, dist query e.embedding))).insertionSort
    (fun a b => a.2 ≤ b.2)).take n

/-- `VectorStore.similarity_search` (lines 137-207).  `k` is a Python int,
so it may be negative.  The result pairs the outcome with a flag recording
whether `collection.query` was reached: the two validation errors fire
before any query, a missing collection or an empty collection returns `[]`
without querying, and otherwise the backend is queried for
`min(k, count)` results whose distances are mapped to `1 - distance`. -/
def similarity_search (store : Option Collection)
    (dist : List ℚ → List ℚ → ℚ) (query_embedding : List ℚ) (k : Int) :
    Except SearchError (List (String × ℚ)) × Bool :=
  if query_embedding.length ≠ 384 then
    (.error .dimensionMismatch, false)
  else if k < 1 then
    (.error .invalidK, false)
  else
    match store with
    | none => (.ok [], false)
    | some c =>
      if c.entries.length = 0 then (.ok [], false)
      else
        let n := min k.toNat c.entries.length
        let ranked := chroma_query dist c.entries query_embedding n
        (.ok (ranked.map (fun p => (p.1, 1 - p.2))), true)

/-- C5 (amended): `add_documents` raises before mutating state when the
parallel lists differ in length or when the FIRST embedding is not
384-dimensional; the dimensionality of the remaining embeddings is not
validated. -/
theorem add_documents_validates_before_mutation
    (texts : List String) (embeddings : List (List ℚ))
    (metadatas : Option (List Metadata)) (store : Option Collection)
    (h : texts.length ≠ embeddings.length ∨
         (∃ m, metadatas = some m ∧ m.length ≠ texts.length) ∨
         (∃ e0 rest, embeddings = e0 :: rest ∧ e0.length ≠ 384)) :
    (add_documents texts embeddings metadatas store).1 = store ∧
    (add_documents texts embeddings metadatas store).2.isSome := by
  unfold add_documents
  split
  · exact ⟨rfl, rfl⟩
  · split
    · exact ⟨rfl, rfl⟩
    · split
      · exact ⟨rfl, rfl⟩
      · rename_i h1 h2 h3
        exfalso
        rcases h with hl | ⟨m, hm, hlen⟩ | ⟨e0, rest, he, hdim⟩
        · exact h1 hl
        · subst hm
          exact h2 (by simpa using hlen)
        · subst he
          exact h3 (by simpa using hdim)

theorem add_documents_validates_before_mutation_witness :
    (add_documents ["a"] [] none none).1 = none ∧
    (add_documents ["a"] [] none none).2.isSome :=
  add_documents_validates_before_mutation ["a"] [] none none
    (Or.inl (by decide))

/-- A well-formed 384-dimensional embedding. -/
def vec384 : List ℚ := List.replicate 384 0

set_option maxRecDepth 4000 in
/-- C5 counterexample: a batch whose SECOND embedding has length 1 ≠ 384
passes validation (no error is raised) and the whole batch is inserted —
the guard at vector_store.py line 95 inspects `embeddings[0]` only, so the
claim that any wrong-dimension embedding raises before mutation is false. -/
theorem add_documents_second_embedding_unchecked :
    [(0 : ℚ)].length ≠ 384 ∧
    (add_documents ["a", "b"] [vec384, [0]] none none).2 = none ∧
    get_collection_count (add_documents ["a", "b"] [vec384, [0]] none none).1 = 2 := by
  refine ⟨by decide, ?_, ?_⟩ <;> decide

/-- C6: `similarity_search` raises `DimensionMismatch` on a query that is
not 384-dimensional and `InvalidK` on k < 1, in that order, in both cases
before the backing store is queried (the flag is false and the result does
not depend on the store); a valid query against a missing or empty
collection returns the empty list without raising and without querying. -/
theorem similarity_search_validation_and_empty
    (store : Option Collection) (dist : List ℚ → List ℚ → ℚ)
    (q : List ℚ) (k : Int) :
    (q.length ≠ 384 →
      similarity_search store dist q k = (.error .dimensionMismatch, false)) ∧
    (q.length = 384 → k < 1 →
      similarity_search store dist q k = (.error .invalidK, false)) ∧
    (q.length = 384 → 1 ≤ k → (store = none ∨ store = some ⟨[]⟩) →
      similarity_search store dist q k = (.ok [], false)) := by
  refine ⟨?_, ?_, ?_⟩
  · intro h
    simp [similarity_search, h]
  · intro h hk
    simp [similarity_search, h, hk]
  · intro h hk hstore
    have hnk : ¬ k < 1 := not_lt.mpr hk
    rcases hstore with rfl | rfl <;> simp [similarity_search, h, hnk]

instance : IsTotal (String × ℚ) (fun a b => a.2 ≤ b.2) :=
  ⟨fun a b => le_total a.2 b.2⟩

instance : IsTrans (String × ℚ) (fun a b => a.2 ≤ b.2) :=
  ⟨fun _ _ _ => le_trans⟩

/-- C7: on a non-empty collection with a valid query and k ≥ 1,
`similarity_search` queries the backend and returns exactly
`min(k, count)` results, ordered by non-increasing similarity score, each
score being `1 -` the cosine distance the backend reported for that text. -/
theorem similarity_search_topk (c : Collection)
    (dist : List ℚ → List ℚ → ℚ) (q : List ℚ) (k : Int)
    (hq : q.length = 384) (hk : 1 ≤ k) (hne : c.entries ≠ []) :
    ∃ l, similarity_search (some c) dist q k = (.ok l, true) ∧
      l.length = min k.toNat c.entries.length ∧
      l.Sorted (fun a b => b.2 ≤ a.2) ∧
      ∀ p ∈ l, ∃ e ∈ chroma_query dist c.entries q (min k.toNat c.entries.length),
        p = (e.1, 1 - e.2) := by
  have hnk : ¬ k < 1 := not_lt.mpr hk
  have hlen0 : ¬ c.entries.length = 0 := by
    simpa [List.length_eq_zero] using hne
  refine ⟨(chroma_query dist c.entries q (min k.toNat c.entries.length)).map
    (fun p => (p.1, 1 - p.2)), ?_, ?_, ?_, ?_⟩
  · simp [similarity_search, hq, hnk, hlen0]
  · rw [List.length_map]
    unfold chroma_query
    rw [List.length_take, List.length_insertionSort, List.length_map]
    omega
  · have hs : List.Sorted (fun a b : String × ℚ => a.2 ≤ b.2)
        ((c.entries.map (fun e => (e.text, dist q e.embedding))).insertionSort
          (fun a b => a.2 ≤ b.2)) :=
      List.sorted_insertionSort _ _
    have ht : List.Sorted (fun a b : String × ℚ => a.2 ≤ b.2)
        (chroma_query dist c.entries q (min k.toNat c.entries.length)) :=
      hs.sublist (List.take_sublist _ _)
    exact List.pairwise_map.mpr (ht.imp (fun hab => by
      simpa using sub_le_sub_left hab 1))
  · intro p hp
    rcases List.mem_map.1 hp with ⟨e, he, rfl⟩
    exact ⟨e, he, rfl⟩

/-- A sample collection, query and backend distance for the C7 witness. -/
def sampleEntryA : VSEntry := ⟨"doc_0", "alpha", vec384, []⟩

def sampleEntryB : VSEntry := ⟨"doc_1", "beta", List.replicate 384 (1/2 : ℚ), []⟩

def sampleCollection : Collection := ⟨[sampleEntryA, sampleEntryB]⟩

def sampleDist : List ℚ → List ℚ → ℚ := fun _ e => 1 - e.headD 0

set_option maxRecDepth 4000 in
theorem similarity_search_topk_witness :
    ∃ l, similarity_search (some sampleCollection) sampleDist vec384 2 =
        (.ok l, true) ∧
      l.length = min (Int.toNat 2) sampleCollection.entries.length ∧
      l.Sorted (fun a b => b.2 ≤ a.2) ∧
      ∀ p ∈ l, ∃ e ∈ chroma_query sampleDist sampleCollection.entries vec384
          (min (Int.toNat 2) sampleCollection.entries.length),
        p = (e.1, 1 - e.2) :=
  similarity_search_topk sampleCollection sampleDist vec384 2
    (by decide) (by decide) (by decide)

/-- The ids of a freshly built batch of entries are the generated ids. -/
theorem newEntries_ids (ids texts : List String) (embeddings : List (List ℚ))
    (metas : List Metadata)
    (hlen : ids.length = texts.length) (he : embeddings.length = texts.length)
    (hm : metas.length = texts.length) :
    ((((ids.zip texts).zip (embeddings.zip metas)).map
      (fun p => VSEntry.mk p.1.1 p.1.2 p.2.1 p.2.2)).map VSEntry.id) = ids := by
  rw [List.map_map]
  have h1 : (VSEntry.id ∘ fun p : (String × String) × (List ℚ × Metadata) =>
      VSEntry.mk p.1.1 p.1.2 p.2.1 p.2.2) =
      (Prod.fst ∘ Prod.fst : (String × String) × (List ℚ × Metadata) → String) := rfl
  rw [h1, ← List.map_map]
  have hA : (ids.zip texts).length ≤ (embeddings.zip metas).length := by
    rw [List.length_zip, List.length_zip]; omega
  have hB : ids.length ≤ texts.length := le_of_eq hlen
  rw [List.map_fst_zip _ _ hA, List.map_fst_zip _ _ hB]

/-- C10: the ids `add_documents` attaches are `doc_0 … doc_{n-1}`, a
function of list position alone — equal-length batches get identical id
lists regardless of content, the ids of a successful insert into any state
are exactly `generated_ids texts.length`, and any two non-empty batches
share the id `doc_0`, so two successive calls without an intervening clear
produce overlapping id sequences. -/
theorem add_documents_ids_positional :
    (∀ texts embeddings metadatas store (c : Collection),
        add_documents texts embeddings metadatas store = (some c, none) →
        (c.entries.drop (get_collection_count store)).map VSEntry.id =
          generated_ids texts.length) ∧
    (∀ t1 t2 : List String, t1.length = t2.length →
        generated_ids t1.length = generated_ids t2.length) ∧
    (∀ n1 n2 : Nat, 1 ≤ n1 → 1 ≤ n2 →
        "doc_0" ∈ generated_ids n1 ∧ "doc_0" ∈ generated_ids n2) := by
  have hmem : ∀ n : Nat, 1 ≤ n → "doc_0" ∈ generated_ids n := by
    intro n hn
    exact List.mem_map.2 ⟨0, List.mem_range.2 hn, rfl⟩
  refine ⟨?_, fun t1 t2 ht => by rw [ht],
    fun n1 n2 h1 h2 => ⟨hmem n1 h1, hmem n2 h2⟩⟩
  · intro texts embeddings metadatas store c hok
    unfold add_documents at hok
    split at hok
    · simp at hok
    · split at hok
      · simp at hok
      · split at hok
        · simp at hok
        · next h1 h2 h3 =>
          have hte : texts.length = embeddings.length := not_ne_iff.mp h1
          have hm : (match metadatas with
              | some m => m
              | none => default_metadatas texts.length).length = texts.length := by
            cases metadatas with
            | none => simp [default_metadatas]
            | some m => simpa using h2
          have hids : (generated_ids texts.length).length = texts.length := by
            simp [generated_ids]
          simp only [Prod.mk.injEq, Option.some.injEq] at hok
          obtain ⟨hc, -⟩ := hok
          subst hc
          cases store with
          | none =>
            simp only [get_collection_count, List.drop_zero, List.nil_append]
            exact newEntries_ids _ _ _ _ hids hte.symm hm
          | some c0 =>
            simp only [get_collection_count, List.drop_left]
            exact newEntries_ids _ _ _ _ hids hte.symm hm

/-! ## Completion client (`OpenRouterClient.stream_completion`,
openrouter_client.py lines 60-216)

One provider attempt is an external event, modelled by `AttemptResult`: a
200 response whose SSE body is a list of frames, a 429, another non-200
status, or one of the three exception classes the code catches.  The
provider's behaviour is a function from the attempt number to its result.
The client makes at most `max_retries = 3` attempts; between attempts it
sleeps `retry_delays[attempt]` seconds, and the run records the attempts
made, the sleeps performed, and the final outcome. -/

/-- One line of the SSE stream, as the parsing loop (lines 142-173)
distinguishes them: a line without the `data: ` prefix, the `[DONE]`
marker, a `data:` line whose JSON fails to parse (logged and skipped), or a
parsed frame carrying the optional `choices[0].delta.content` and whether
`finish_reason == "stop"`. -/
inductive SSEFrame where
  | notData
  | doneMark
  | malformed
  | frame (content : Option String) (finishStop : Bool)
deriving DecidableEq

/-- The token sequence the SSE loop yields from a 200 response body:
non-empty `delta.content` strings, stopping at `[DONE]`, at a
`finish_reason == "stop"` frame (whose own content is still yielded
first), or at the end of the body. -/
def parse_sse : List SSEFrame → List String
  | [] => []
  | .notData :: rest => parse_sse rest
  | .doneMark :: _ => []
  | .malformed :: rest => parse_sse rest
  | .frame content finishStop :: rest =>
    let toks := match content with
      | some tok => if tok ≠ "" then [tok] else []
      | none => []
    if finishStop then toks else toks ++ parse_sse rest

/-- What the provider does on one attempt. -/
inductive AttemptResult where
  | success (body : List SSEFrame)  -- HTTP 200 with an SSE stream
  | status429                       -- rate limited
  | httpStatus (code : Nat)         -- other non-200 status
  | timeoutExc                      -- httpx.TimeoutException
  | httpExc                         -- httpx.HTTPError
  | otherExc                        -- any other exception
deriving DecidableEq

/-- How `stream_completion` terminates when it does not yield a full
stream: `rateLimited` is `raise_for_status()` on the final 429 (a distinct
429 status error), the others re-raise the final attempt's failure. -/
inductive StreamError where
  | rateLimited
  | httpStatusError (code : Nat)
  | timeoutError
  | httpError
  | unexpectedError
  | retriesExhausted  -- the defensive raise after the loop (line 216)
deriving DecidableEq

structure StreamRun where
  attemptsMade : Nat
  delays : List Nat
  outcome : Except StreamError (List String)

def max_retries : Nat := 3

/-- `self.retry_delays = [1.0, 2.0, 4.0]` (line 43), in whole seconds. -/
def retry_delays : List Nat := [1, 2, 4]

/-- The retry loop `for attempt in range(self.max_retries)` of
`stream_completion`: `fuel` is the number of loop iterations left,
`attempt` the current index, `delays` the sleeps performed so far.  Tokens
yielded by a failed attempt are discarded: only the succeeding attempt's
parsed body reaches the caller. -/
def stream_attempts (provider : Nat → AttemptResult) :
    Nat → Nat → List Nat → StreamRun
  | 0, attempt, delays => ⟨attempt, delays, .error .retriesExhausted⟩
  | fuel + 1, attempt, delays =>
    match provider attempt with
    | .success body => ⟨attempt + 1, delays, .ok (parse_sse body)⟩
    | .status429 =>
      if attempt < max_retries - 1 then
        stream_attempts provider fuel (attempt + 1)
          (delays ++ [retry_delays.getD attempt 0])
      else ⟨attempt + 1, delays, .error .rateLimited⟩
    | .httpStatus code =>
      if attempt < max_retries - 1 then
        stream_attempts provider fuel (attempt + 1)
          (delays ++ [retry_delays.getD attempt 0])
      else ⟨attempt + 1, delays, .error (.httpStatusError code)⟩
    | .timeoutExc =>
      if attempt < max_retries - 1 then
        stream_attempts provider fuel (attempt + 1)
          (delays ++ [retry_delays.getD attempt 0])
      else ⟨attempt + 1, delays, .error .timeoutError⟩
    | .httpExc =>
      if attempt < max_retries - 1 then
        stream_attempts provider fuel (attempt + 1)
          (delays ++ [retry_delays.getD attempt 0])
      else ⟨attempt + 1, delays, .error .httpError⟩
    | .otherExc =>
      if attempt < max_retries - 1 then
        stream_attempts provider fuel (attempt + 1)
          (delays ++ [retry_delays.getD attempt 0])
      else ⟨attempt + 1, delays, .error .unexpectedError⟩

/-- `OpenRouterClient.stream_completion` as a run over the provider's
per-attempt behaviour. -/
def stream_completion (provider : Nat → AttemptResult) : StreamRun :=
  stream_attempts provider max_retries 0 []

/-- A provider that answers 429 to every attempt. -/
def always429 : Nat → AttemptResult := fun _ => .status429

/-- C3 counterexample: under sustained 429 responses the client makes 3
attempts and sleeps 1s then 2s — the configured 4s delay is never slept,
because the third attempt is the last and raises immediately.  The claim's
1s/2s/4s wait schedule therefore does not happen. -/
theorem stream_completion_429_delays :
    stream_completion always429 = ⟨3, [1, 2], .error .rateLimited⟩ ∧
    (stream_completion always429).delays ≠ [1, 2, 4] ∧
    4 ∉ (stream_completion always429).delays :=
  ⟨rfl, by decide, by decide⟩

/-- The attempt counter of the retry loop never exceeds the remaining
fuel. -/
theorem stream_attempts_attempts_le (provider : Nat → AttemptResult) :
    ∀ (fuel attempt : Nat) (delays : List Nat),
    (stream_attempts provider fuel attempt delays).attemptsMade ≤
      attempt + fuel := by
  intro fuel
  induction fuel with
  | zero => intro attempt delays; simp [stream_attempts]
  | succ n ih =>
    intro attempt delays
    simp only [stream_attempts]
    cases provider attempt with
    | success body => dsimp only; omega
    | status429 =>
      dsimp only
      split
      · exact le_trans (ih _ _) (by omega)
      · dsimp only; omega
    | httpStatus code =>
      dsimp only
      split
      · exact le_trans (ih _ _) (by omega)
      · dsimp only; omega
    | timeoutExc =>
      dsimp only
      split
      · exact le_trans (ih _ _) (by omega)
      · dsimp only; omega
    | httpExc =>
      dsimp only
      split
      · exact le_trans (ih _ _) (by omega)
      · dsimp only; omega
    | otherExc =>
      dsimp only
      split
      · exact le_trans (ih _ _) (by omega)
      · dsimp only; omega

/-- C3 (amended): `stream_completion` makes at most 3 attempts for every
provider behaviour; under sustained 429s it makes exactly 3 attempts,
sleeping 1s after the first failure and 2s after the second (the 4s entry
of the configured schedule is never slept), and then raises the
rate-limited error; and a 429 on attempt 1 followed by a success on
attempt 2 yields exactly the token sequence a first-attempt success would
yield — nothing from the discarded first attempt is duplicated. -/
theorem stream_completion_retry_behaviour :
    (∀ provider, (stream_completion provider).attemptsMade ≤ 3) ∧
    stream_completion always429 = ⟨3, [1, 2], .error .rateLimited⟩ ∧
    (∀ body : List SSEFrame,
      (stream_completion
        (fun n => if n = 0 then .status429 else .success body)).outcome =
      (stream_completion (fun _ => .success body)).outcome ∧
      (stream_completion
        (fun n => if n = 0 then .status429 else .success body)).outcome =
        .ok (parse_sse body)) := by
  refine ⟨?_, rfl, ?_⟩
  · intro provider
    simpa using stream_attempts_attempts_le provider 3 0 []
  · intro body
    constructor <;> rfl

/-! ## RAG orchestrator (`RAGEngine`, rag_engine.py)

The engine's collaborators enter as data: the sentence-transformer encoder
as `embed`, the vector store as the collection state plus the backend
distance, and the OpenRouter client as the provider behaviour for the
prompt it is sent.  A trace counts how many times each collaborator was
invoked, which is how the "no network call" part of the empty-question
contract is stated. -/

structure RagTrace where
  embedCalls : Nat
  searchCalls : Nat
  streamCalls : Nat
deriving DecidableEq

inductive RagError where
  | emptyQuestion
  | searchError (e : SearchError)
  | streamError (e : StreamError)

structure RagServices where
  embed : String → List ℚ
  store : Option Collection
  dist : List ℚ → List ℚ → ℚ
  provider : String → Nat → AttemptResult

/-- `RAGEngine._construct_prompt` (rag_engine.py lines 42-81). -/
def construct_prompt (question : String) (context_chunks : List String) :
    String :=
  let system_message :=
    "You are a helpful AI assistant answering questions about " ++
    "Rushikesh Randive's portfolio and experience. Use the provided " ++
    "context to answer accurately."
  let context_section :=
    String.intercalate "\n"
      (context_chunks.enum.map (fun p =>
        "[" ++ toString (p.1 + 1) ++ "] " ++ p.2))
  "System: " ++ system_message ++ "\n\nContext:\n" ++ context_section ++
    "\n\nQuestion: " ++ question

/-- `RAGEngine.process_question` (rag_engine.py lines 83-149): the guard
`not question or not question.strip()` raises before anything else runs;
then the question is embedded, the store searched with k=3, the prompt
built, and the client streamed.  Typed failures of the search and of the
stream propagate (re-raised by the except blocks). -/
def process_question (svc : RagServices) (question : String) :
    RagTrace × Except RagError (List String) :=
  if pyBlank question then
    (⟨0, 0, 0⟩, .error .emptyQuestion)
  else
    let question_embedding := svc.embed question
    match (similarity_search svc.store svc.dist question_embedding 3).1 with
    | .error e => (⟨1, 1, 0⟩, .error (.searchError e))
    | .ok results =>
      let context_chunks := results.map (fun p => p.1)
      let prompt := construct_prompt question context_chunks
      let run := stream_completion (svc.provider prompt)
      match run.outcome with
      | .ok tokens => (⟨1, 1, 1⟩, .ok tokens)
      | .error e => (⟨1, 1, 1⟩, .error (.streamError e))

/-- C8: an empty or whitespace-only question fails with the empty-question
`ValueError` and a zero trace — the encoder, the index and the completion
client are never invoked. -/
theorem process_question_empty_fails_fast (svc : RagServices) (q : String)
    (h : pyBlank q = true) :
    process_question svc q = (⟨0, 0, 0⟩, .error .emptyQuestion) := by
  simp [process_question, h]

def idleServices : RagServices :=
  { embed := fun _ => vec384
    store := none
    dist := fun _ _ => 0
    provider := fun _ _ => .otherExc }

theorem process_question_empty_fails_fast_witness :
    process_question idleServices "" = (⟨0, 0, 0⟩, .error .emptyQuestion) ∧
    process_question idleServices " \t\n" =
      (⟨0, 0, 0⟩, .error .emptyQuestion) :=
  ⟨process_question_empty_fails_fast idleServices "" (by decide),
   process_question_empty_fails_fast idleServices " \t\n" (by decide)⟩

/-! ## Provider fallback (C1)

Modelled from the spec: the fallback-capable orchestrator — the
`GroqClient` secondary provider and the `RAGEngine` variant accepting an
optional `groq_client` — is not among the source files; only its callers
(`main.py` lines 110-131, which construct `RAGEngine(...,
groq_client=...)`) and its declaration checks (`verify_fallback.py`,
asserting the `groq_client` parameter exists and is optional) are.
Following §4.5/§9 of the spec, the orchestrator holds an ordered pair of
completion clients, runs the same pipeline step against the primary, and
if the primary raises a provider-HTTP-layer error or exhausts its retries
and a secondary is configured, retries the completion step against the
secondary exactly once, yielding the secondary's tokens; only the
secondary's own failure (or a missing secondary) surfaces. -/

structure FallbackServices where
  embed : String → List ℚ
  store : Option Collection
  dist : List ℚ → List ℚ → ℚ
  primary : String → Nat → AttemptResult
  secondary : Option (String → Nat → AttemptResult)

/-- How many times each completion client ran its full attempt loop. -/
structure ClientTrace where
  primaryRuns : Nat
  secondaryRuns : Nat
deriving DecidableEq

/-- Modelled from the spec: `answer` / `process_question` of the
fallback-capable RAG engine (spec §4.5, §9). -/
def process_question_fallback (svc : FallbackServices) (question : String) :
    ClientTrace × Except RagError (List String) :=
  if pyBlank question then
    (⟨0, 0⟩, .error .emptyQuestion)
  else
    let question_embedding := svc.embed question
    match (similarity_search svc.store svc.dist question_embedding 3).1 with
    | .error e => (⟨0, 0⟩, .error (.searchError e))
    | .ok results =>
      let prompt := construct_prompt question (results.map (fun p => p.1))
      match (stream_completion (svc.primary prompt)).outcome with
      | .ok tokens => (⟨1, 0⟩, .ok tokens)
      | .error ePrimary =>
        match svc.secondary with
        | none => (⟨1, 0⟩, .error (.streamError ePrimary))
        | some sec =>
          match (stream_completion (sec prompt)).outcome with
          | .ok tokens => (⟨1, 1⟩, .ok tokens)
          | .error eSec => (⟨1, 1⟩, .error (.streamError eSec))

/-- C1: when the primary client's run fails (provider-HTTP-layer error or
retries exhausted) and a configured secondary's run succeeds, `answer`
retries against the secondary exactly once (trace `⟨1, 1⟩`) and yields the
secondary's tokens — the primary's error never reaches the caller. -/
theorem process_question_fallback_uses_secondary
    (svc : FallbackServices) (q : String) (results : List (String × ℚ))
    (sec : String → Nat → AttemptResult) (e : StreamError)
    (tokens : List String)
    (hq : pyBlank q = false)
    (hsearch : (similarity_search svc.store svc.dist (svc.embed q) 3).1 =
      .ok results)
    (hsec : svc.secondary = some sec)
    (hprim : (stream_completion
      (svc.primary (construct_prompt q (results.map (fun p => p.1))))).outcome =
      .error e)
    (hsecondary : (stream_completion
      (sec (construct_prompt q (results.map (fun p => p.1))))).outcome =
      .ok tokens) :
    process_question_fallback svc q = (⟨1, 1⟩, .ok tokens) := by
  unfold process_question_fallback
  rw [if_neg (by simp [hq])]
  dsimp only
  rw [hsearch]
  dsimp only
  rw [hprim]
  dsimp only
  rw [hsec]
  dsimp only
  rw [hsecondary]

/-- A primary that always rate-limits and a secondary that streams one
token. -/
def failingPrimary : String → Nat → AttemptResult := fun _ _ => .status429

def healthySecondary : String → Nat → AttemptResult :=
  fun _ _ => .success [.frame (some "hello") false, .doneMark]

def fallbackServices : FallbackServices :=
  { embed := fun _ => vec384
    store := none
    dist := fun _ _ => 0
    primary := failingPrimary
    secondary := some healthySecondary }

set_option maxRecDepth 4000 in
theorem process_question_fallback_uses_secondary_witness :
    process_question_fallback fallbackServices "What are your skills?" =
      (⟨1, 1⟩, .ok ["hello"]) :=
  process_question_fallback_uses_secondary fallbackServices
    "What are your skills?" [] healthySecondary .rateLimited ["hello"]
    (by decide) rfl rfl rfl rfl

/-! ## Corpus indexer (`RAGInitializer`, initialize_rag.py)

`initialize` touches three collaborators: the vector store (modelled as
before), the filesystem (`Path(resume_path).exists()`, a boolean of the
environment) and `embed_resume_corpus` (whose surviving chunk/embedding
pairs are environment data — encoding failures already dropped, as
embedding_service.py lines 239-248 skip failing chunks).  Exceptions
raised inside the `try` block appear as the `Except.error` of
`initialize_core`; the `except` clauses of lines 211-226 map every one of
them to a failure report, which is what `initialize` returns. -/

/-- Python `str.strip()` on both ends. -/
def pyStrip (s : String) : String :=
  String.mk (((s.data.dropWhile pyIsSpace).reverse.dropWhile pyIsSpace).reverse)

/-- Python `needle in hay` on strings. -/
def strContains (hay needle : String) : Bool :=
  decide (needle.data <:+: hay.data)

def containsAny (hay : String) (kws : List String) : Bool :=
  kws.any (fun kw => strContains hay kw)

/-- Python `s.replace(" ", "_")`. -/
def spacesToUnderscores (s : String) : String :=
  String.mk (s.data.map (fun c => if c = ' ' then '_' else c))

/-- `RAGInitializer._create_metadata` (initialize_rag.py lines 43-107):
the base dict, then the cascading keyword classification of the chunk into
a section and subsection, in source order. -/
def create_metadata (chunk : String) (index : Nat) : Metadata :=
  let base : Metadata :=
    [("chunk_id", .str ("chunk_" ++ toString index)),
     ("char_count", .nat chunk.length),
     ("source", .str "resume.json")]
  let chunk_lower := chunk.toLower
  base ++
  (if containsAny chunk_lower ["contact:", "email:", "linkedin:", "github:"] then
    [("section", .str "personal"), ("subsection", .str "contact_info")]
  else if strContains chunk_lower "education:" || strContains chunk_lower "b.tech" ||
      strContains chunk_lower "cgpa:" then
    [("section", .str "education"), ("subsection", .str "academic_background")]
  else if containsAny chunk_lower ["current role:", "responsibilities:", "duration:"] then
    [("section", .str "experience"), ("subsection", .str "work_experience")]
  else if containsAny chunk_lower
      ["programming languages:", "frontend technologies:", "backend technologies:",
       "database technologies:", "devops tools:", "ai/ml technologies:"] then
    [("section", .str "skills")] ++
    (if strContains chunk_lower "programming languages:" then
      [("subsection", .str "languages")]
    else if strContains chunk_lower "frontend" then
      [("subsection", .str "frontend")]
    else if strContains chunk_lower "backend" then
      [("subsection", .str "backend")]
    else if strContains chunk_lower "database" then
      [("subsection", .str "databases")]
    else if strContains chunk_lower "devops" then
      [("subsection", .str "devops")]
    else if strContains chunk_lower "ai/ml" then
      [("subsection", .str "ai_ml")]
    else [])
  else
    [("section", .str "projects")] ++
    (match chunk.data.findIdx? (fun c => c = ':') with
      | some first_colon =>
        if 0 < first_colon ∧ first_colon < 100 then
          [("subsection", .str ("project_" ++
            spacesToUnderscores (pyStrip (pySlice chunk first_colon)).toLower))]
        else [("subsection", .str ("project_" ++ toString index))]
      | none => [("subsection", .str ("project_" ++ toString index))]))

/-- The environment `initialize` reads: whether the resume file exists,
and the chunk/embedding pairs `embed_resume_corpus` would return. -/
structure InitEnv where
  file_exists : Bool
  chunks_with_embeddings : List (String × List ℚ)

inductive InitExc where
  | fileNotFound          -- the raise at initialize_rag.py line 158
  | addFailure (e : AddError)  -- a ValueError out of add_documents
deriving DecidableEq

/-- The claim-relevant fields of the result dict of `initialize`. -/
structure InitReport where
  success : Bool
  chunks_processed : Nat
  embeddings_generated : Nat
deriving DecidableEq

/-- The `try` block of `RAGInitializer.initialize` (lines 130-209):
idempotency check, optional clear, file check, chunking/embedding, batch
insert.  An `Except.error` is an exception leaving the block. -/
def initialize_core (env : InitEnv) (force_reinit : Bool)
    (store : Option Collection) :
    Option Collection × Except InitExc InitReport :=
  let existing_count := get_collection_count store
  if 0 < existing_count ∧ force_reinit = false then
    (store, .ok ⟨true, 0, 0⟩)
  else
    let store1 :=
      if force_reinit = true ∧ 0 < existing_count then clear_collection store
      else store
    if env.file_exists = false then
      (store1, .error .fileNotFound)
    else
      let cwe := env.chunks_with_embeddings
      if cwe.isEmpty then (store1, .ok ⟨false, 0, 0⟩)
      else
        let chunks := cwe.map (fun p => p.1)
        let embeddings := cwe.map (fun p => p.2)
        let metadatas := chunks.enum.map (fun p => create_metadata p.2 p.1)
        match add_documents chunks embeddings (some metadatas) store1 with
        | (store2, some e) => (store2, .error (.addFailure e))
        | (store2, none) => (store2, .ok ⟨true, chunks.length, embeddings.length⟩)

/-- `RAGInitializer.initialize`: the `except FileNotFoundError` and
`except Exception` clauses (lines 211-226) turn every exception of the
`try` block into a failure report, so the method is total — no exception
reaches the caller. -/
def initialize_rag (env : InitEnv) (force_reinit : Bool)
    (store : Option Collection) : Option Collection × InitReport :=
  match initialize_core env force_reinit store with
  | (s, .ok r) => (s, r)
  | (s, .error _) => (s, ⟨false, 0, 0⟩)

/-- C4: on a populated index, `initialize` with `force_reinit=False`
returns success with zero chunks processed and zero embeddings generated
and leaves the store (hence its entry count) unchanged; in particular a
second no-force reindex after a populating one processes nothing. -/
theorem initialize_skips_populated_store (env : InitEnv) (force : Bool)
    (store : Option Collection)
    (hcount : 0 < get_collection_count store) (hforce : force = false) :
    initialize_rag env force store = (store, ⟨true, 0, 0⟩) := by
  unfold initialize_rag initialize_core
  rw [if_pos ⟨hcount, hforce⟩]

/-- A one-entry store for the initializer witnesses. -/
def tinyEntry : VSEntry := ⟨"doc_0", "t", [], []⟩

def populatedStore : Option Collection := some ⟨[tinyEntry]⟩

theorem initialize_skips_populated_store_witness :
    initialize_rag ⟨true, []⟩ false populatedStore =
      (populatedStore, ⟨true, 0, 0⟩) :=
  initialize_skips_populated_store ⟨true, []⟩ false populatedStore
    (by decide) rfl

/-- C9 counterexample: with a missing resume file but a populated index
and `force_reinit=False`, `initialize` returns a SUCCESS report (the
idempotency check short-circuits before the file is ever looked at), not
the failure report the claim asserts for every missing-file path. -/
theorem initialize_missing_file_not_always_failure :
    (initialize_rag ⟨false, []⟩ false populatedStore).2 =
      ⟨true, 0, 0⟩ := by
  decide

/-- C9 (amended): whenever the missing-file check is actually reached —
the index is empty or `force_reinit` is set — a path naming no existing
resume file makes the `try` block raise `FileNotFoundError`, which
`initialize` catches and maps to a failure report (success=false, zero
chunks, zero embeddings) instead of propagating the exception, so the
caller can continue in a degraded unindexed state. -/
theorem initialize_missing_file_reports_failure (env : InitEnv)
    (force : Bool) (store : Option Collection)
    (hfile : env.file_exists = false)
    (h : get_collection_count store = 0 ∨ force = true) :
    (initialize_core env force store).2 = .error .fileNotFound ∧
    (initialize_rag env force store).2 = ⟨false, 0, 0⟩ := by
  have hskip : ¬(0 < get_collection_count store ∧ force = false) := by
    rcases h with h | h
    · intro hx; omega
    · intro hx; rw [h] at hx; exact absurd hx.2 (by decide)
  have hcore : initialize_core env force store =
      ((if force = true ∧ 0 < get_collection_count store then
          clear_collection store else store), .error .fileNotFound) := by
    unfold initialize_core
    rw [if_neg hskip]
    dsimp only
    rw [if_pos hfile]
  constructor
  · rw [hcore]
  · unfold initialize_rag
    rw [hcore]

theorem initialize_missing_file_reports_failure_witness :
    (initialize_core ⟨false, []⟩ false none).2 = .error .fileNotFound ∧
    (initialize_rag ⟨false, []⟩ false none).2 = ⟨false, 0, 0⟩ :=
  initialize_missing_file_reports_failure ⟨false, []⟩ false none rfl
    (Or.inl rfl)

end Portfolio
